import Mathlib

/-!
# ApplicationDeployment: the `MainWindow` constructor

`src/mainwindow.cpp` holds one constructor and one (empty) destructor.  The
constructor builds a small tree of toolkit objects and assigns properties to
them.  The development below embeds

* the part of the widget toolkit the constructor calls, as operations on an
  explicit object store (`World`): object creation with a parent link, the
  `QMainWindow` constructor with the layout it gives every main window,
  property setters, `QMainWindow::setCentralWidget`, the `QLayout`
  constructor that installs itself on its parent widget, and
  `QBoxLayout::addWidget` with the reparenting done by
  `QLayout::addChildWidget`;
* the constructor itself, statement by statement, as a program in the
  state-and-error monad `M`.

An object is referred to by its identity (`ObjId`), the analogue of the C++
pointer.  The object tree is kept as parent links; the children of an object
are the objects whose parent link points to it.
-/

set_option linter.dupNamespace false

namespace AppDeploy

/-- Identity of a toolkit object (the analogue of a `QObject *`). -/
abbrev ObjId := Nat

/-- The toolkit classes instantiated while the constructor runs:
`QMainWindow`, the `QMainWindowLayout` every main window makes for itself,
`QWidget`, `QVBoxLayout` and `QLabel`. -/
inductive Kind where
  | mainWindow
  | mainWindowLayout
  | widget
  | vboxLayout
  | label
  deriving DecidableEq, Repr

/-- Whether a class derives from `QWidget` (layouts are plain `QObject`s). -/
def Kind.isWidget : Kind → Bool
  | .mainWindow => true
  | .widget => true
  | .label => true
  | .mainWindowLayout => false
  | .vboxLayout => false

/-- Whether a class derives from `QLayout`. -/
def Kind.isLayout : Kind → Bool
  | .mainWindowLayout => true
  | .vboxLayout => true
  | _ => false

/-- Whether a class is `QMainWindowLayout`. -/
def Kind.isMainWindowLayout : Kind → Bool
  | .mainWindowLayout => true
  | _ => false

/-- Whether a class derives from `QMainWindow`. -/
def Kind.isMainWindow : Kind → Bool
  | .mainWindow => true
  | _ => false

/-- Whether a class derives from `QLabel`. -/
def Kind.isLabel : Kind → Bool
  | .label => true
  | _ => false

/-- Whether a class derives from `QBoxLayout`. -/
def Kind.isBoxLayout : Kind → Bool
  | .vboxLayout => true
  | _ => false

/-! ## `Qt::AlignmentFlag` and related constants -/

def AlignLeft : Nat := 0x0001
def AlignRight : Nat := 0x0002
def AlignHCenter : Nat := 0x0004
def AlignJustify : Nat := 0x0008
def AlignAbsolute : Nat := 0x0010
def AlignTop : Nat := 0x0020
def AlignBottom : Nat := 0x0040
def AlignVCenter : Nat := 0x0080
def AlignBaseline : Nat := 0x0100

def AlignHorizontal_Mask : Nat :=
  AlignLeft ||| AlignRight ||| AlignHCenter ||| AlignJustify ||| AlignAbsolute

def AlignVertical_Mask : Nat :=
  AlignTop ||| AlignBottom ||| AlignVCenter ||| AlignBaseline

/-- The flag `Qt::AlignCenter`, that is `AlignVCenter | AlignHCenter`. -/
def AlignCenter : Nat := AlignVCenter ||| AlignHCenter

/-- The flag `Qt::TextExpandTabs`, part of a label's initial flags. -/
def TextExpandTabs : Nat := 0x0400

/-- The toolkit's largest widget dimension, `(1 << 24) - 1`. -/
def QWIDGETSIZE_MAX : Int := (1 <<< 24) - 1

/-- Bitwise complement on 32-bit flag words (`~m` in the toolkit source). -/
def flagsNot (m : Nat) : Nat := 0xFFFFFFFF ^^^ (m % 2 ^ 32)

/-! ## Objects and the object store -/

/-- The properties of a toolkit object that the constructor reads or writes.
A field that does not apply to an object's class keeps its initial value. -/
structure Obj where
  kind : Kind
  /-- The `QObject` parent link (owner). -/
  parent : Option ObjId
  windowTitle : String := ""
  minimumWidth : Int := 0
  minimumHeight : Int := 0
  /-- For a main window: its central widget. -/
  centralWidget : Option ObjId := none
  /-- For a widget: the layout installed on it (`QWidget::layout()`). -/
  layout : Option ObjId := none
  /-- For a layout: the widgets it manages, in order. -/
  items : List ObjId := []
  /-- For a label: its text. -/
  text : String := ""
  /-- For a label: the private flag word holding alignment and text flags. -/
  align : Nat := 0
  styleSheet : String := ""
  /-- The widget attribute `Qt::WA_LaidOut`. -/
  laidOut : Bool := false
  deriving DecidableEq, Repr

/-- The object store: the live objects, the next unused identity, the
toolkit warnings printed so far and the objects scheduled by `deleteLater`. -/
structure World where
  heap : Nat → Option Obj
  next : Nat
  warnings : List String
  pendingDelete : List ObjId

/-- The store with no object in it. -/
def World.empty : World :=
  { heap := fun _ => none, next := 0, warnings := [], pendingDelete := [] }

/-- Overwrite (or create) the object stored under `id`. -/
def World.put (w : World) (id : ObjId) (o : Obj) : World :=
  { w with heap := fun j => if j = id then some o else w.heap j }

/-- What goes wrong when a call is made through a pointer that does not
refer to a live object of the expected class, or through a null pointer held
by `owner`. -/
inductive QtError where
  | deadObject (id : ObjId)
  | wrongKind (id : ObjId)
  | nullPointer (owner : ObjId)
  deriving DecidableEq, Repr

/-- Toolkit code: a state transformer over the object store that may fail. -/
abbrev M := StateT World (Except QtError)

/-- The operator `new`: store a fresh object and return its identity. -/
def create (o : Obj) : M ObjId := fun w =>
  .ok (w.next, { w.put w.next o with next := w.next + 1 })

/-- Follow a pointer to an object of a class accepted by `ok`. -/
def deref (id : ObjId) (ok : Kind → Bool) : M Obj := fun w =>
  match w.heap id with
  | none => .error (.deadObject id)
  | some o => if ok o.kind then .ok (o, w) else .error (.wrongKind id)

/-- Write an object back under its identity. -/
def store (id : ObjId) (o : Obj) : M Unit := fun w =>
  .ok ((), w.put id o)

/-- The toolkit's `qWarning`: the call goes on, the message is recorded. -/
def qWarning (msg : String) : M Unit := fun w =>
  .ok ((), { w with warnings := w.warnings ++ [msg] })

/-- The slot `QObject::deleteLater`: deletion is left to the event loop. -/
def QObject.deleteLater (id : ObjId) : M Unit := fun w =>
  .ok ((), { w with pendingDelete := w.pendingDelete ++ [id] })

/-! ## The toolkit calls made by the constructor -/

/-- The constructor `QLayout(QWidget *parent)` of a layout of class `kind`:
the layout installs itself on `parent`, unless `parent` already has a
layout, in which case the toolkit warns and the new layout is left without a
parent. -/
def QLayout.QLayout (kind : Kind) (parent : ObjId) : M ObjId := do
  let p ← deref parent Kind.isWidget
  match p.layout with
  | some _ =>
    qWarning "QLayout: Attempting to add QLayout to QWidget, which already has a layout"
    create { kind := kind, parent := none }
  | none =>
    let l ← create { kind := kind, parent := some parent }
    store parent { p with layout := some l }
    pure l

/-- The constructor `QMainWindow(QWidget *parent)`: the window is created
under `parent`, then `QMainWindowPrivate::init` creates the window's own
`QMainWindowLayout` and installs it on the window. -/
def QMainWindow.QMainWindow (parent : Option ObjId) : M ObjId := do
  let self ← create { kind := .mainWindow, parent := parent }
  let _ ← QLayout.QLayout .mainWindowLayout self
  pure self

/-- The constructor `QWidget(QWidget *parent)`. -/
def QWidget.QWidget (parent : Option ObjId) : M ObjId :=
  create { kind := .widget, parent := parent }

/-- The constructor `QLabel(const QString &text, QWidget *parent)`.  A new
label is left-aligned, vertically centered and expands tabs. -/
def QLabel.QLabel (text : String) (parent : Option ObjId) : M ObjId :=
  create { kind := .label, parent := parent, text := text,
           align := AlignLeft ||| AlignVCenter ||| TextExpandTabs }

/-- The setter `QWidget::setWindowTitle`. -/
def QWidget.setWindowTitle (self : ObjId) (title : String) : M Unit := do
  let o ← deref self Kind.isWidget
  store self { o with windowTitle := title }

/-- The setter `QWidget::setMinimumSize(int, int)`, after the toolkit helper
`setMinimumSize_helper`: a dimension equal to `QWIDGETSIZE_MAX` is stored as
0; when a dimension is larger than `QWIDGETSIZE_MAX` the toolkit warns and
both are cut down to it; when a dimension is negative the toolkit warns and
both are raised to 0. -/
def QWidget.setMinimumSize (self : ObjId) (minw minh : Int) : M Unit := do
  let o ← deref self Kind.isWidget
  let mw0 : Int := if minw = QWIDGETSIZE_MAX then 0 else minw
  let mh0 : Int := if minh = QWIDGETSIZE_MAX then 0 else minh
  let tooLarge : Bool := decide (minw > QWIDGETSIZE_MAX ∨ minh > QWIDGETSIZE_MAX)
  if tooLarge then
    qWarning "QWidget::setMinimumSize: The largest allowed size is (QWIDGETSIZE_MAX,QWIDGETSIZE_MAX)"
  let minw1 : Int := if tooLarge then min minw QWIDGETSIZE_MAX else minw
  let minh1 : Int := if tooLarge then min minh QWIDGETSIZE_MAX else minh
  let mw1 : Int := if tooLarge then minw1 else mw0
  let mh1 : Int := if tooLarge then minh1 else mh0
  let negative : Bool := decide (minw1 < 0 ∨ minh1 < 0)
  if negative then
    qWarning "QWidget::setMinimumSize: Negative sizes are not possible"
  let mw2 : Int := if negative then max minw1 0 else mw1
  let mh2 : Int := if negative then max minh1 0 else mh1
  store self { o with minimumWidth := mw2, minimumHeight := mh2 }

/-- The setter `QWidget::setStyleSheet`. -/
def QWidget.setStyleSheet (self : ObjId) (styleSheet : String) : M Unit := do
  let o ← deref self Kind.isWidget
  store self { o with styleSheet := styleSheet }

/-- The setter `QLabel::setAlignment`: only the alignment bits of the flag
word are replaced. -/
def QLabel.setAlignment (self : ObjId) (alignment : Nat) : M Unit := do
  let o ← deref self Kind.isLabel
  if alignment = o.align &&& (AlignVertical_Mask ||| AlignHorizontal_Mask) then
    return
  store self { o with
    align := (o.align &&& flagsNot (AlignVertical_Mask ||| AlignHorizontal_Mask))
             ||| (alignment &&& (AlignVertical_Mask ||| AlignHorizontal_Mask)) }

/-- The getter `QLabel::alignment`: the alignment bits of the flag word. -/
def QLabel.alignment (o : Obj) : Nat :=
  o.align &&& (AlignVertical_Mask ||| AlignHorizontal_Mask)

/-- Take `widget` out of the layout installed on `pw`, when there is one. -/
def QLayout.removeWidgetFrom (pw widget : ObjId) : M Unit := do
  let p ← deref pw Kind.isWidget
  match p.layout with
  | none => pure ()
  | some l =>
    let lo ← deref l Kind.isLayout
    store l { lo with items := lo.items.filter (fun i => i != widget) }

/-- The helper `QLayout::addChildWidget`, for a layout whose parent widget is
`mw`: a widget that was laid out before leaves its old layout; a widget
whose parent is not `mw` is moved under `mw`; the widget is marked as laid
out. -/
def QLayout.addChildWidget (mw : Option ObjId) (widget : ObjId) : M Unit := do
  let o ← deref widget Kind.isWidget
  match o.parent with
  | some pw => if o.laidOut then QLayout.removeWidgetFrom pw widget
  | none => pure ()
  let pw : Option ObjId :=
    match o.parent, mw with
    | some p, some m => if p ≠ m then none else some p
    | p, _ => p
  let o ← deref widget Kind.isWidget
  if pw.isNone ∧ mw.isSome then
    store widget { o with parent := mw, laidOut := true }
  else
    store widget { o with laidOut := true }

/-- The method `QLayout::parentWidget` of a layout object: its parent, when
the layout has been installed on a widget. -/
def QLayout.parentWidget (l : Obj) : Option ObjId := l.parent

/-- The method `QMainWindow::setCentralWidget`: a different previous central
widget is scheduled for deletion; the new one is handed to the window's own
layout, which adopts it (`addChildWidget`) and keeps it as its one item. -/
def QMainWindow.setCentralWidget (self widget : ObjId) : M Unit := do
  let o ← deref self Kind.isMainWindow
  match o.centralWidget with
  | some old => if old ≠ widget then QObject.deleteLater old
  | none => pure ()
  match o.layout with
  | none => throw (.nullPointer self)
  | some ml =>
    let lo ← deref ml Kind.isMainWindowLayout
    QLayout.addChildWidget (QLayout.parentWidget lo) widget
    let lo ← deref ml Kind.isMainWindowLayout
    store ml { lo with items := [widget] }
  let o ← deref self Kind.isMainWindow
  store self { o with centralWidget := some widget }

/-- The constructor `QVBoxLayout(QWidget *parent)`. -/
def QVBoxLayout.QVBoxLayout (parent : ObjId) : M ObjId :=
  QLayout.QLayout .vboxLayout parent

/-- The method `QBoxLayout::addWidget(QWidget *)`: the parent widget of the
layout itself is refused with a warning; any other widget is adopted by
`addChildWidget` and appended to the layout. -/
def QBoxLayout.addWidget (self widget : ObjId) : M Unit := do
  let l ← deref self Kind.isBoxLayout
  if QLayout.parentWidget l = some widget then
    qWarning "QLayout: Cannot add parent widget to its child layout"
    return
  QLayout.addChildWidget (QLayout.parentWidget l) widget
  let l ← deref self Kind.isBoxLayout
  store self { l with items := l.items ++ [widget] }

/-! ## `MainWindow` -/

/-- Modelled from the spec: the class declaration (`mainwindow.h`) is not
among the sources.  The constructor assigns to a member `label`; an instance
is the window object itself together with that member. -/
structure MainWindow where
  /-- The window object (`this`). -/
  self : ObjId
  /-- The member `QLabel *label`. -/
  label : ObjId
  deriving DecidableEq, Repr

/-- The text handed to the `QLabel` constructor. -/
def labelText : String :=
  "Qt Application Deployment System\n\nThis is an example application for testing deployment."

/-- The constructor `MainWindow::MainWindow(QWidget *parent)`, statement by
statement. -/
def MainWindow.MainWindow (parent : Option ObjId) : M MainWindow := do
  let self ← QMainWindow.QMainWindow parent
  QWidget.setWindowTitle self "Qt Application Deployment Example"
  QWidget.setMinimumSize self 400 300
  let centralWidget ← QWidget.QWidget (some self)
  QMainWindow.setCentralWidget self centralWidget
  let layout ← QVBoxLayout.QVBoxLayout centralWidget
  let label ← QLabel.QLabel labelText (some self)
  QLabel.setAlignment label AlignCenter
  QWidget.setStyleSheet label "font-size: 14px; padding: 20px;"
  QBoxLayout.addWidget layout label
  pure { self := self, label := label }

/-- The statements of the constructor that come before
`layout->addWidget(label)`: the result names the window, the central widget,
the layout and the label, in this order. -/
def MainWindow.beforeAddWidget (parent : Option ObjId) :
    M (ObjId × ObjId × ObjId × ObjId) := do
  let self ← QMainWindow.QMainWindow parent
  QWidget.setWindowTitle self "Qt Application Deployment Example"
  QWidget.setMinimumSize self 400 300
  let centralWidget ← QWidget.QWidget (some self)
  QMainWindow.setCentralWidget self centralWidget
  let layout ← QVBoxLayout.QVBoxLayout centralWidget
  let label ← QLabel.QLabel labelText (some self)
  QLabel.setAlignment label AlignCenter
  QWidget.setStyleSheet label "font-size: 14px; padding: 20px;"
  pure (self, centralWidget, layout, label)

/-! ## Ownership and destruction -/

/-- Whether `x` is `root` or is owned by `root`, directly or through at most
`fuel` parent links. -/
def World.ownsWithin (w : World) (root : ObjId) : Nat → ObjId → Bool
  | 0, x => decide (x = root)
  | fuel + 1, x =>
    decide (x = root) ||
      match w.heap x with
      | none => false
      | some o =>
        match o.parent with
        | none => false
        | some p => w.ownsWithin root fuel p

/-- Whether `x` is `root` or is owned by `root`.  A chain of parent links
between objects of the store is no longer than the number of identities
handed out. -/
def World.owns (w : World) (root x : ObjId) : Bool :=
  w.ownsWithin root w.next x

/-- The destructor `QObject::~QObject`, as far as the store goes: the object
and everything it owns leave the store. -/
def QObject.destroy (id : ObjId) : M Unit := fun w =>
  match w.heap id with
  | none => .error (.deadObject id)
  | some _ => .ok ((), { w with heap := fun j => if w.owns id j then none else w.heap j })

/-- The destructor `MainWindow::~MainWindow()`: its own body is empty, the
base-class destructor then runs. -/
def MainWindow.destructor (m : AppDeploy.MainWindow) : M Unit := do
  QObject.destroy m.self

/-! ## What a window shows -/

/-- The visible properties of a widget placed in a layout. -/
structure LabelView where
  kind : Kind
  text : String
  alignment : Nat
  styleSheet : String
  deriving DecidableEq, Repr

/-- The visible properties of a main window, with no object identity in
them: title, minimum size, the class of the central widget, the class of the
layout installed on it, and the widgets of that layout in order. -/
structure WindowView where
  windowTitle : String
  minimumWidth : Int
  minimumHeight : Int
  centralWidget : Option Kind
  layout : Option Kind
  widgets : List (Option LabelView)
  deriving DecidableEq, Repr

/-- Read the visible properties of the window `win` off the store. -/
def World.view (w : World) (win : ObjId) : Option WindowView :=
  match w.heap win with
  | none => none
  | some o =>
    let cw : Option Obj := o.centralWidget.bind w.heap
    let lay : Option Obj := (cw.bind fun c => c.layout).bind w.heap
    some
      { windowTitle := o.windowTitle
        minimumWidth := o.minimumWidth
        minimumHeight := o.minimumHeight
        centralWidget := cw.map fun c => c.kind
        layout := lay.map fun l => l.kind
        widgets :=
          ((lay.map fun l => l.items).getD []).map fun i =>
            (w.heap i).map fun x =>
              { kind := x.kind, text := x.text, alignment := QLabel.alignment x,
                styleSheet := x.styleSheet } }

/-! ## Reading the object tree -/

/-- The identities handed out between the store `w` and the store
`later`, oldest first: the objects created in between. -/
def World.created (w later : World) : List ObjId :=
  List.range' w.next (later.next - w.next)

/-- The parent link of the object `id`, when the object is live and has a
parent (`QObject::parent()`). -/
def World.parentOf (w : World) (id : ObjId) : Option ObjId :=
  (w.heap id).bind fun o => o.parent

/-- The class of the object `id`, when the object is live. -/
def World.kindOf (w : World) (id : ObjId) : Option Kind :=
  (w.heap id).map fun o => o.kind

/-- Those of `ids` that are live widgets whose parent link is `p`. -/
def World.childWidgets (w : World) (ids : List ObjId) (p : ObjId) : List ObjId :=
  ids.filter fun id =>
    match w.heap id with
    | none => false
    | some o => o.kind.isWidget && decide (o.parent = some p)

/-- A store that holds one parentless plain widget, under identity 0: the
state of a program that has created the widget it will pass as parent. -/
def World.oneWidget : World :=
  { heap := fun j => if j = 0 then some { kind := .widget, parent := none } else none
    next := 1
    warnings := []
    pendingDelete := [] }

/-! ## The store reached by the constructor, written out

Starting from a store whose next identity is `n`, the window is `n`, its own
layout `n + 1`, the central widget `n + 2`, the vertical layout `n + 3` and
the label `n + 4`. -/

/-- The label as the constructor leaves it, under the parent `p`, laid out
or not. -/
def builtLabel (p : ObjId) (laidOut : Bool) : Obj :=
  { kind := .label, parent := some p, text := labelText, align := 0x484,
    styleSheet := "font-size: 14px; padding: 20px;", laidOut := laidOut }

/-- The window as the constructor leaves it. -/
def builtWindow (parent : Option ObjId) (ownLayout central : ObjId) : Obj :=
  { kind := .mainWindow, parent := parent,
    windowTitle := "Qt Application Deployment Example",
    minimumWidth := 400, minimumHeight := 300, centralWidget := some central,
    layout := some ownLayout }

/-- The store after the `QMainWindow` base constructor, starting from `w`:
a window without title and the layout installed on it. -/
def builtBase (parent : Option ObjId) (w : World) : World :=
  { heap := fun j =>
      if j = w.next + 1 then some { kind := .mainWindowLayout, parent := some w.next }
      else if j = w.next then
        some { kind := .mainWindow, parent := parent, layout := some (w.next + 1) }
      else w.heap j
    next := w.next + 2
    warnings := w.warnings
    pendingDelete := w.pendingDelete }

/-- The store right before `layout->addWidget(label)`, starting from `w`. -/
def builtBefore (parent : Option ObjId) (w : World) : World :=
  { heap := fun j =>
      if j = w.next + 4 then some (builtLabel w.next false)
      else if j = w.next + 3 then
        some { kind := .vboxLayout, parent := some (w.next + 2) }
      else if j = w.next + 2 then
        some { kind := .widget, parent := some w.next, layout := some (w.next + 3),
               laidOut := true }
      else if j = w.next + 1 then
        some { kind := .mainWindowLayout, parent := some w.next, items := [w.next + 2] }
      else if j = w.next then some (builtWindow parent (w.next + 1) (w.next + 2))
      else w.heap j
    next := w.next + 5
    warnings := w.warnings
    pendingDelete := w.pendingDelete }

/-- The store when the constructor returns, starting from `w`. -/
def built (parent : Option ObjId) (w : World) : World :=
  { heap := fun j =>
      if j = w.next + 4 then some (builtLabel (w.next + 2) true)
      else if j = w.next + 3 then
        some { kind := .vboxLayout, parent := some (w.next + 2), items := [w.next + 4] }
      else if j = w.next + 2 then
        some { kind := .widget, parent := some w.next, layout := some (w.next + 3),
               laidOut := true }
      else if j = w.next + 1 then
        some { kind := .mainWindowLayout, parent := some w.next, items := [w.next + 2] }
      else if j = w.next then some (builtWindow parent (w.next + 1) (w.next + 2))
      else w.heap j
    next := w.next + 5
    warnings := w.warnings
    pendingDelete := w.pendingDelete }

/-! ## Running the constructor -/

theorem QWIDGETSIZE_MAX_eq : QWIDGETSIZE_MAX = 16777215 := by decide

theorem align_center_eq :
    (AlignLeft ||| AlignVCenter ||| TextExpandTabs)
        &&& flagsNot (AlignVertical_Mask ||| AlignHorizontal_Mask)
      ||| AlignCenter &&& (AlignVertical_Mask ||| AlignHorizontal_Mask) = 0x484 := by
  decide

theorem align_center_ne :
    ¬ (AlignCenter = (AlignLeft ||| AlignVCenter ||| TextExpandTabs)
        &&& (AlignVertical_Mask ||| AlignHorizontal_Mask)) := by
  decide

/-- The constructor succeeds from every store and reaches `built`. -/
theorem ctor_run (parent : Option ObjId) (w : World) :
    (MainWindow.MainWindow parent).run w
      = .ok ({ self := w.next, label := w.next + 4 }, built parent w) := by
  simp [MainWindow.MainWindow, StateT.run, bind, StateT.bind, Except.bind, pure, StateT.pure,
    Except.pure, QMainWindow.QMainWindow, QWidget.QWidget, QLabel.QLabel, create, store, deref,
    World.put, QWidget.setWindowTitle, QWidget.setMinimumSize, QWidget.setStyleSheet,
    QLabel.setAlignment, QMainWindow.setCentralWidget, QLayout.addChildWidget,
    QVBoxLayout.QVBoxLayout, QLayout.QLayout, QBoxLayout.addWidget, QLayout.parentWidget,
    Kind.isWidget, Kind.isLabel, Kind.isMainWindow, Kind.isBoxLayout, Kind.isMainWindowLayout,
    QWIDGETSIZE_MAX_eq, qWarning, QObject.deleteLater, QLayout.removeWidgetFrom,
    align_center_eq, align_center_ne, Nat.add_assoc]
  simp only [built, builtLabel, builtWindow]
  congr 1
  funext j
  by_cases h4 : j = w.next + 4
  · subst h4; simp
  by_cases h3 : j = w.next + 3
  · subst h3; simp
  by_cases h2 : j = w.next + 2
  · subst h2; simp
  by_cases h1 : j = w.next + 1
  · subst h1; simp
  by_cases h0 : j = w.next
  · subst h0; simp
  simp [h4, h3, h2, h1, h0]

/-- The statements before `addWidget` succeed and reach `builtBefore`. -/
theorem beforeAddWidget_run (parent : Option ObjId) (w : World) :
    (MainWindow.beforeAddWidget parent).run w
      = .ok ((w.next, w.next + 2, w.next + 3, w.next + 4), builtBefore parent w) := by
  simp [MainWindow.beforeAddWidget, StateT.run, bind, StateT.bind, Except.bind, pure,
    StateT.pure, Except.pure, QMainWindow.QMainWindow, QWidget.QWidget, QLabel.QLabel, create,
    store, deref, World.put, QWidget.setWindowTitle, QWidget.setMinimumSize,
    QWidget.setStyleSheet, QLabel.setAlignment, QMainWindow.setCentralWidget,
    QLayout.addChildWidget, QVBoxLayout.QVBoxLayout, QLayout.QLayout, QLayout.parentWidget,
    Kind.isWidget, Kind.isLabel, Kind.isMainWindow, Kind.isBoxLayout, Kind.isMainWindowLayout,
    QWIDGETSIZE_MAX_eq, qWarning, QObject.deleteLater, QLayout.removeWidgetFrom,
    align_center_eq, align_center_ne, Nat.add_assoc]
  simp only [builtBefore, builtLabel, builtWindow]
  congr 1
  funext j
  by_cases h4 : j = w.next + 4
  · subst h4; simp
  by_cases h3 : j = w.next + 3
  · subst h3; simp
  by_cases h2 : j = w.next + 2
  · subst h2; simp
  by_cases h1 : j = w.next + 1
  · subst h1; simp
  by_cases h0 : j = w.next
  · subst h0; simp
  simp [h4, h3, h2, h1, h0]

/-- The call `layout->addWidget(label)` takes `builtBefore` to `built`. -/
theorem addWidget_run (parent : Option ObjId) (w : World) :
    (QBoxLayout.addWidget (w.next + 3) (w.next + 4)).run (builtBefore parent w)
      = .ok ((), built parent w) := by
  simp [StateT.run, bind, StateT.bind, Except.bind, pure, StateT.pure, Except.pure, store,
    deref, World.put, QLayout.addChildWidget, QBoxLayout.addWidget, QLayout.parentWidget,
    Kind.isWidget, Kind.isBoxLayout, builtBefore, builtLabel, builtWindow]
  simp only [built, builtLabel, builtWindow]
  congr 1
  funext j
  by_cases h4 : j = w.next + 4
  · subst h4; simp
  by_cases h3 : j = w.next + 3
  · subst h3; simp
  by_cases h2 : j = w.next + 2
  · subst h2; simp
  by_cases h1 : j = w.next + 1
  · subst h1; simp
  by_cases h0 : j = w.next
  · subst h0; simp
  simp [h4, h3, h2, h1, h0]

theorem built_heap_self (parent : Option ObjId) (w : World) :
    (built parent w).heap w.next
      = some (builtWindow parent (w.next + 1) (w.next + 2)) := by
  simp [built]

theorem built_heap_ownLayout (parent : Option ObjId) (w : World) :
    (built parent w).heap (w.next + 1)
      = some { kind := .mainWindowLayout, parent := some w.next, items := [w.next + 2] } := by
  simp [built]

theorem built_heap_central (parent : Option ObjId) (w : World) :
    (built parent w).heap (w.next + 2)
      = some { kind := .widget, parent := some w.next, layout := some (w.next + 3),
               laidOut := true } := by
  simp [built]

theorem built_heap_layout (parent : Option ObjId) (w : World) :
    (built parent w).heap (w.next + 3)
      = some { kind := .vboxLayout, parent := some (w.next + 2), items := [w.next + 4] } := by
  simp [built]

theorem built_heap_label (parent : Option ObjId) (w : World) :
    (built parent w).heap (w.next + 4) = some (builtLabel (w.next + 2) true) := by
  simp [built]

theorem built_heap_other (parent : Option ObjId) (w : World) (j : Nat)
    (h : j < w.next ∨ w.next + 5 ≤ j) : (built parent w).heap j = w.heap j := by
  have h4 : ¬ j = w.next + 4 := by omega
  have h3 : ¬ j = w.next + 3 := by omega
  have h2 : ¬ j = w.next + 2 := by omega
  have h1 : ¬ j = w.next + 1 := by omega
  have h0 : ¬ j = w.next := by omega
  simp [built, h4, h3, h2, h1, h0]

theorem builtBefore_heap_label (parent : Option ObjId) (w : World) :
    (builtBefore parent w).heap (w.next + 4) = some (builtLabel w.next false) := by
  simp [builtBefore]

theorem outside_of_five (n j : Nat) (h0 : ¬ j = n) (h1 : ¬ j = n + 1) (h2 : ¬ j = n + 2)
    (h3 : ¬ j = n + 3) (h4 : ¬ j = n + 4) : j < n ∨ n + 5 ≤ j := by
  omega

theorem built_created (parent : Option ObjId) (w : World) :
    w.created (built parent w)
      = [w.next, w.next + 1, w.next + 2, w.next + 3, w.next + 4] := by
  simp [World.created, built, List.range']

theorem ownsWithin_self (w : World) (root : ObjId) (fuel : Nat) :
    w.ownsWithin root fuel root = true := by
  cases fuel <;> simp [World.ownsWithin]

theorem ownsWithin_step (w : World) (root x p : ObjId) (o : Obj) (fuel : Nat)
    (hx : w.heap x = some o) (hp : o.parent = some p)
    (h : w.ownsWithin root fuel p = true) : w.ownsWithin root (fuel + 1) x = true := by
  simp [World.ownsWithin, hx, hp, h]

/-- In the store the constructor leaves, the window owns the five objects. -/
theorem built_owns (parent : Option ObjId) (w : World) (id : Nat)
    (h : id ∈ [w.next, w.next + 1, w.next + 2, w.next + 3, w.next + 4]) :
    (built parent w).owns w.next id = true := by
  have hc : ∀ fuel, (built parent w).ownsWithin w.next (fuel + 1) (w.next + 2) = true :=
    fun fuel => ownsWithin_step _ _ _ _ _ fuel (built_heap_central parent w) rfl
      (ownsWithin_self _ _ _)
  have hnext : (built parent w).next = w.next + 3 + 1 + 1 := rfl
  simp only [List.mem_cons, List.mem_singleton, List.not_mem_nil, or_false] at h
  unfold World.owns
  rw [hnext]
  rcases h with h | h | h | h | h <;> subst h
  · exact ownsWithin_self _ _ _
  · exact ownsWithin_step _ _ _ _ _ _ (built_heap_ownLayout parent w) rfl
      (ownsWithin_self _ _ _)
  · exact hc _
  · exact ownsWithin_step _ _ _ _ _ _ (built_heap_layout parent w) rfl (hc _)
  · exact ownsWithin_step _ _ _ _ _ _ (built_heap_label parent w) rfl (hc _)

/-- The views of a window built by the constructor, whatever the parent. -/
theorem built_view (parent : Option ObjId) (w : World) :
    (built parent w).view w.next
      = some { windowTitle := "Qt Application Deployment Example"
               minimumWidth := 400
               minimumHeight := 300
               centralWidget := some .widget
               layout := some .vboxLayout
               widgets := [some { kind := .label, text := labelText, alignment := AlignCenter,
                                  styleSheet := "font-size: 14px; padding: 20px;" }] } := by
  have ha : QLabel.alignment (builtLabel (w.next + 2) true) = AlignCenter := by
    simp only [builtLabel, QLabel.alignment]; decide
  simp [World.view, built_heap_self, built_heap_central, built_heap_layout, built_heap_label,
    builtWindow, ha]
  simp [builtLabel]

/-- Destroying the window just built succeeds and frees what it owns. -/
theorem destructor_run (parent : Option ObjId) (w : World) :
    (MainWindow.destructor { self := w.next, label := w.next + 4 }).run (built parent w)
      = .ok ((), { built parent w with
          heap := fun j =>
            if (built parent w).owns w.next j then none else (built parent w).heap j }) := by
  simp [MainWindow.destructor, QObject.destroy, StateT.run, built_heap_self]

/-- The store after the `QMainWindow` base constructor alone. -/
theorem baseCtor_run (parent : Option ObjId) (w : World) :
    (QMainWindow.QMainWindow parent).run w = .ok (w.next, builtBase parent w) := by
  simp [QMainWindow.QMainWindow, QLayout.QLayout, StateT.run, bind, StateT.bind, Except.bind,
    pure, StateT.pure, Except.pure, create, store, deref, World.put, Kind.isWidget,
    Nat.add_assoc]
  simp only [builtBase]
  congr 1
  funext j
  by_cases h1 : j = w.next + 1
  · subst h1; simp
  by_cases h0 : j = w.next
  · subst h0; simp
  simp [h1, h0]

/-! ## The claims -/

/-- C1: for every parent argument (the null parent `none` included) and
every store, the constructor returns a window whose title is exactly
"Qt Application Deployment Example" and whose minimum size is exactly 400
wide by 300 high. -/
theorem C1_title_and_minimum_size (parent : Option ObjId) (w : World) :
    ∃ m wc win, (MainWindow.MainWindow parent).run w = .ok (m, wc) ∧
      wc.heap m.self = some win ∧ win.kind = .mainWindow ∧
      win.windowTitle = "Qt Application Deployment Example" ∧
      win.minimumWidth = 400 ∧ win.minimumHeight = 300 := by
  refine ⟨_, _, _, ctor_run parent w, built_heap_self parent w, ?_⟩
  simp [builtWindow]

/-- C2: for every parent argument, after the constructor returns the window
has a central widget, the central widget carries a vertical box layout, the
layout holds exactly one widget, that widget is the object stored in the
member `label`, it is a label and the only label among the objects the
constructor created, and its text is exactly the two lines
"Qt Application Deployment System" and "This is an example application for
testing deployment." with one empty line between them. -/
theorem C2_one_label_displayed (parent : Option ObjId) (w : World) :
    ∃ m wc win c cw l lay lab, (MainWindow.MainWindow parent).run w = .ok (m, wc) ∧
      wc.heap m.self = some win ∧ win.centralWidget = some c ∧
      wc.heap c = some cw ∧ cw.kind = .widget ∧ cw.layout = some l ∧
      wc.heap l = some lay ∧ lay.kind = .vboxLayout ∧ lay.items = [m.label] ∧
      wc.heap m.label = some lab ∧ lab.kind = .label ∧
      (w.created wc).filter (fun id => decide (wc.kindOf id = some Kind.label)) = [m.label] ∧
      lab.text = "Qt Application Deployment System\n\nThis is an example application for testing deployment." ∧
      lab.text.data.splitOn '\n'
        = ["Qt Application Deployment System".data, [],
           "This is an example application for testing deployment.".data] := by
  refine ⟨_, _, _, _, _, _, _, _, ctor_run parent w, built_heap_self parent w, rfl,
    built_heap_central parent w, rfl, rfl, built_heap_layout parent w, rfl, rfl,
    built_heap_label parent w, rfl, ?_, rfl, ?_⟩
  · simp [built_created, World.kindOf, List.filter, built_heap_self, built_heap_ownLayout,
      built_heap_central, built_heap_layout, built_heap_label, builtWindow, builtLabel]
  · simp only [builtLabel]
    decide

/-- C3: for every parent argument, the label made by the constructor has
alignment `Qt::AlignCenter`, that is horizontally centered and vertically
centered, and its style sheet is exactly "font-size: 14px; padding: 20px;". -/
theorem C3_label_alignment_and_style (parent : Option ObjId) (w : World) :
    ∃ m wc lab, (MainWindow.MainWindow parent).run w = .ok (m, wc) ∧
      wc.heap m.label = some lab ∧ lab.kind = .label ∧
      QLabel.alignment lab = AlignCenter ∧
      QLabel.alignment lab &&& AlignHorizontal_Mask = AlignHCenter ∧
      QLabel.alignment lab &&& AlignVertical_Mask = AlignVCenter ∧
      lab.styleSheet = "font-size: 14px; padding: 20px;" := by
  refine ⟨_, _, _, ctor_run parent w, built_heap_label parent w, rfl, ?_, ?_, ?_, rfl⟩
  · simp only [builtLabel, QLabel.alignment]; decide
  · simp only [builtLabel, QLabel.alignment]; decide
  · simp only [builtLabel, QLabel.alignment]; decide

/-- C4: after the constructor returns, every object created during the call
is owned by the window: the central widget has the window as parent, the
layout and the label have the central widget as parent (and the layout the
toolkit gives the window has the window as parent), so each created object
is reached from the window along parent links and none but the window itself
is left without an owner. -/
theorem C4_created_objects_owned (parent : Option ObjId) (w : World) :
    ∃ m wc ol c l, (MainWindow.MainWindow parent).run w = .ok (m, wc) ∧
      w.created wc = [m.self, ol, c, l, m.label] ∧
      (wc.heap m.self).map (fun o => o.centralWidget) = some (some c) ∧
      (wc.heap c).map (fun o => o.layout) = some (some l) ∧
      wc.parentOf ol = some m.self ∧
      wc.parentOf c = some m.self ∧
      wc.parentOf l = some c ∧
      wc.parentOf m.label = some c ∧
      (∀ id ∈ w.created wc, wc.owns m.self id = true) ∧
      (∀ id ∈ w.created wc, id ≠ m.self → (wc.parentOf id).isSome = true) := by
  refine ⟨_, _, w.next + 1, w.next + 2, w.next + 3, ctor_run parent w,
    built_created parent w, ?_, ?_, ?_, ?_, ?_, ?_, ?_, ?_⟩
  · simp [built_heap_self, builtWindow]
  · simp [built_heap_central]
  · simp [World.parentOf, built_heap_ownLayout]
  · simp [World.parentOf, built_heap_central]
  · simp [World.parentOf, built_heap_layout]
  · simp [World.parentOf, built_heap_label, builtLabel]
  · intro id hid
    rw [built_created] at hid
    exact built_owns parent w id hid
  · intro id hid hne
    rw [built_created] at hid
    simp only [List.mem_cons, List.mem_singleton, List.not_mem_nil, or_false] at hid
    rcases hid with h | h | h | h | h <;> subst h
    · exact absurd rfl hne
    · simp [World.parentOf, built_heap_ownLayout]
    · simp [World.parentOf, built_heap_central]
    · simp [World.parentOf, built_heap_layout]
    · simp [World.parentOf, built_heap_label, builtLabel]

/-- C5, as first stated, fails: it counts four objects and no layout but the
`QVBoxLayout`.  From the empty store with a null parent the constructor
creates five objects, among them two layouts: the `QMainWindow` base
constructor gives the window a layout of its own. -/
theorem C5_exactly_four_objects_counterexample :
    ∃ m wc, (MainWindow.MainWindow none).run World.empty = .ok (m, wc) ∧
      (World.empty.created wc).map wc.kindOf
        = [some .mainWindow, some .mainWindowLayout, some .widget, some .vboxLayout,
           some .label] ∧
      (World.empty.created wc).length ≠ 4 ∧
      ((World.empty.created wc).filter fun id =>
          decide (wc.kindOf id = some Kind.vboxLayout)
            || decide (wc.kindOf id = some Kind.mainWindowLayout)).length = 2 := by
  refine ⟨_, _, ctor_run none World.empty, ?_, ?_, ?_⟩
  · simp [built_created, World.kindOf, built_heap_self, built_heap_ownLayout,
      built_heap_central, built_heap_layout, built_heap_label, builtWindow, builtLabel]
  · simp [built_created]
  · simp [built_created, World.kindOf, List.filter, built_heap_self, built_heap_ownLayout,
      built_heap_central, built_heap_layout, built_heap_label, builtWindow, builtLabel]

/-- C5, amended: one call of the constructor creates exactly five objects and
wires them.  The `QMainWindow` base constructor creates the window and the
layout that the toolkit installs on every main window; the three `new`
expressions of the constructor body create one plain `QWidget`, one
`QVBoxLayout` and one `QLabel`.  The widget is the central widget of the
window, the `QVBoxLayout` is installed on it, the label is the one widget of
that layout.  No other object is created, changed or scheduled for
deletion. -/
theorem C5_five_objects_created (parent : Option ObjId) (w : World) :
    ∃ m wb wc ol c l,
      (QMainWindow.QMainWindow parent).run w = .ok (m.self, wb) ∧
      w.created wb = [m.self, ol] ∧
      (MainWindow.MainWindow parent).run w = .ok (m, wc) ∧
      wc.next = w.next + 5 ∧
      w.created wc = [m.self, ol, c, l, m.label] ∧
      wb.created wc = [c, l, m.label] ∧
      (w.created wc).map wc.kindOf
        = [some .mainWindow, some .mainWindowLayout, some .widget, some .vboxLayout,
           some .label] ∧
      (wc.heap m.self).map (fun o => o.layout) = some (some ol) ∧
      (wc.heap m.self).map (fun o => o.centralWidget) = some (some c) ∧
      (wc.heap c).map (fun o => o.layout) = some (some l) ∧
      (wc.heap l).map (fun o => o.items) = some [m.label] ∧
      (∀ id, id ∉ w.created wc → wc.heap id = w.heap id) ∧
      wc.pendingDelete = w.pendingDelete := by
  refine ⟨{ self := w.next, label := w.next + 4 }, _, _, w.next + 1, w.next + 2, w.next + 3,
    baseCtor_run parent w, ?_, ctor_run parent w, rfl, built_created parent w, ?_, ?_, ?_, ?_,
    ?_, ?_, ?_, rfl⟩
  · simp [World.created, builtBase, List.range']
  · simp [World.created, builtBase, built, List.range', Nat.add_assoc]
  · simp [built_created, World.kindOf, built_heap_self, built_heap_ownLayout,
      built_heap_central, built_heap_layout, built_heap_label, builtWindow, builtLabel]
  · simp [built_heap_self, builtWindow]
  · simp [built_heap_self, builtWindow]
  · simp [built_heap_central]
  · simp [built_heap_layout]
  · intro id hid
    rw [built_created] at hid
    simp only [List.mem_cons, List.mem_singleton, List.not_mem_nil, or_false, not_or] at hid
    obtain ⟨h0, h1, h2, h3, h4⟩ := hid
    exact built_heap_other parent w id (outside_of_five w.next id h0 h1 h2 h3 h4)

/-- C6: the constructor has no failing branch.  For every parent argument
(the null parent included) and every store it returns a window, a live main
window object, and no toolkit warning is printed on the way; in particular it
never returns an error.  The destructor of that window likewise returns
without error or warning, and afterwards none of the created objects is
left in the store. -/
theorem C6_constructor_and_destructor_succeed (parent : Option ObjId) (w : World) :
    ∃ m wc wd, (MainWindow.MainWindow parent).run w = .ok (m, wc) ∧
      (∀ e, (MainWindow.MainWindow parent).run w ≠ .error e) ∧
      wc.kindOf m.self = some .mainWindow ∧
      wc.warnings = w.warnings ∧
      (MainWindow.destructor m).run wc = .ok ((), wd) ∧
      wd.warnings = w.warnings ∧
      (∀ id ∈ w.created wc, wd.heap id = none) := by
  refine ⟨_, _, _, ctor_run parent w, ?_, ?_, rfl, destructor_run parent w, rfl, ?_⟩
  · intro e
    rw [ctor_run]
    exact fun h => nomatch h
  · simp [World.kindOf, built_heap_self, builtWindow]
  · intro id hid
    rw [built_created] at hid
    simp [built_owns parent w id hid]

/-- C7: the label is constructed with the window as its parent, and the call
`layout->addWidget(label)` moves it under the central widget.  Provided the
parent argument, when not null, is an object that exists already: right
before `addWidget` the parent of the label is the window; the constructor is
these statements followed by `addWidget`; when it returns the parent of the
label is the central widget, the only widget among the created objects whose
parent is the window is the central widget, and the only one whose parent is
the central widget is the label. -/
theorem C7_label_reparented (parent : Option ObjId) (w : World)
    (hp : ∀ p : Nat, parent = some p → p < w.next) :
    ∃ self c l lab w1 w2,
      (MainWindow.beforeAddWidget parent).run w = .ok ((self, c, l, lab), w1) ∧
      w1.parentOf lab = some self ∧
      (QBoxLayout.addWidget l lab).run w1 = .ok ((), w2) ∧
      (MainWindow.MainWindow parent).run w = .ok ({ self := self, label := lab }, w2) ∧
      (w2.heap self).map (fun o => o.centralWidget) = some (some c) ∧
      w2.parentOf lab = some c ∧
      w2.childWidgets (w.created w2) self = [c] ∧
      w2.childWidgets (w.created w2) c = [lab] := by
  refine ⟨_, _, _, _, _, _, beforeAddWidget_run parent w, ?_, addWidget_run parent w,
    ctor_run parent w, ?_, ?_, ?_, ?_⟩
  · simp [World.parentOf, builtBefore_heap_label, builtLabel]
  · simp [built_heap_self, builtWindow]
  · simp [World.parentOf, built_heap_label, builtLabel]
  · have hne : ¬ parent = some w.next := fun h => Nat.lt_irrefl _ (hp _ h)
    simp [World.childWidgets, built_created, List.filter, built_heap_self,
      built_heap_ownLayout, built_heap_central, built_heap_layout, built_heap_label,
      builtWindow, builtLabel, Kind.isWidget, hne]
  · have hne : ¬ parent = some (w.next + 2) := fun h => by
      have := hp _ h
      omega
    simp [World.childWidgets, built_created, List.filter, built_heap_self,
      built_heap_ownLayout, built_heap_central, built_heap_layout, built_heap_label,
      builtWindow, builtLabel, Kind.isWidget, hne]

/-- C7 at a concrete input: the parent is the one widget of `World.oneWidget`. -/
theorem C7_label_reparented_witness :
    (∀ p : Nat, some 0 = some p → p < World.oneWidget.next) ∧
    ∃ self c l lab w1 w2,
      (MainWindow.beforeAddWidget (some 0)).run World.oneWidget = .ok ((self, c, l, lab), w1) ∧
      w1.parentOf lab = some self ∧
      (QBoxLayout.addWidget l lab).run w1 = .ok ((), w2) ∧
      (MainWindow.MainWindow (some 0)).run World.oneWidget
        = .ok ({ self := self, label := lab }, w2) ∧
      (w2.heap self).map (fun o => o.centralWidget) = some (some c) ∧
      w2.parentOf lab = some c ∧
      w2.childWidgets (World.oneWidget.created w2) self = [c] ∧
      w2.childWidgets (World.oneWidget.created w2) c = [lab] :=
  have h : ∀ p : Nat, some 0 = some p → p < World.oneWidget.next := by
    intro p hp
    cases hp
    decide
  ⟨h, C7_label_reparented (some 0) World.oneWidget h⟩

/-- C8: the window does not depend on the parent argument except through
its parent link.  For any two parent arguments, from any two stores, the two
windows built by the constructor have the same view: title, minimum size,
class of the central widget, class of its layout, and text, alignment and
style sheet of the label in the layout.  The parent link of each window is
the parent argument it was given. -/
theorem C8_view_independent_of_parent (p1 p2 : Option ObjId) (w1 w2 : World) :
    ∃ m1 m2 v1 v2 view,
      (MainWindow.MainWindow p1).run w1 = .ok (m1, v1) ∧
      (MainWindow.MainWindow p2).run w2 = .ok (m2, v2) ∧
      v1.view m1.self = some view ∧
      v2.view m2.self = some view ∧
      view.widgets.length = 1 ∧
      (v1.heap m1.self).map (fun o => o.parent) = some p1 ∧
      (v2.heap m2.self).map (fun o => o.parent) = some p2 := by
  refine ⟨_, _, _, _, _, ctor_run p1 w1, ctor_run p2 w2, built_view p1 w1, built_view p2 w2,
    rfl, ?_, ?_⟩
  · simp [built_heap_self, builtWindow]
  · simp [built_heap_self, builtWindow]

end AppDeploy
